import Mathlib

/-!
Verification of the Testability Refactoring Analyzer's rule-evaluation and
scoring core, by a shallow embedding of the Python sources
(`src/testability_analyzer/`) into Lean.

Modelling conventions:
* Python `ast` nodes are modelled by the inductive `Node` below.  Child nodes
  appear in `Node.children` in Python field order.  Nodes that no embedded
  predicate can ever match (the `arguments`/`arg` objects, expression contexts
  `Load`/`Store`, operator objects, `alias` wrappers, decorator lists and type
  annotations) are omitted from the child lists: every rule in the code base
  inspects only the node kinds kept here, so their omission is observationally
  irrelevant to every embedded function.
* `ast.walk` is breadth-first (a deque seeded with the root, popping from the
  left and appending children).  `walk` below implements exactly that queue
  discipline, driven by a fuel argument so that it is structurally recursive
  and kernel-computable.  The fuel `Node.size n + 1` always suffices:
  `Node.size n` is the exact number of `Node` subterms of `n`, each iteration
  dequeues exactly one node, and every node of the tree is enqueued exactly
  once, so the traversal takes exactly `Node.size n` dequeue steps.  Hence the
  fuel-exhaustion branch is unreachable and `walk` agrees with Python's
  `ast.walk` on every input.
* Python sets of strings are modelled as `List String` queried only through
  membership, matching how the code uses them.
* Python exceptions escaping a function are modelled with `Except PyErr`.
  `AttributeError` arises in `BranchExplosionRule._count_branches`: the line
  `elif isinstance(child, (ast.While, ast.AsyncWhile))` evaluates the tuple
  `(ast.While, ast.AsyncWhile)` before the isinstance test, and the `ast`
  module has no attribute `AsyncWhile` (there is no async while statement in
  Python), so reaching that `elif` raises.  `FileNotFoundError` arises in
  `parse_file`, whose `except (SyntaxError, UnicodeDecodeError)` clause does
  not cover a failing `open()`.
* `points_deducted` is modelled as `Nat`: the data model declares it a
  non-negative integer and every `Violation` constructed anywhere in the code
  base carries one of the constants 5, 8, 10, 15 or `2 * excess` with
  `excess ≥ 1`.
-/

/-- Python exceptions that can escape the analyzer's functions. -/
inductive PyErr where
  | attributeError
  | fileNotFoundError
deriving DecidableEq, Repr

/-- `base.Violation` (dataclass). -/
structure Violation where
  ruleName : String
  description : String
  pointsDeducted : Nat
  lineNumber : Nat
  functionName : String
  isRedFlag : Bool
deriving DecidableEq, Repr

/-- `base.FunctionScore` (dataclass).  Field order follows the dataclass;
`baselineScore` defaults to 100. -/
structure FunctionScore where
  name : String
  lineNumber : Nat
  finalScore : Int
  violations : List Violation
  baselineScore : Int := 100
deriving DecidableEq, Repr

/-- `base.ClassScore` (dataclass). -/
structure ClassScore where
  name : String
  lineNumber : Nat
  constructorViolations : List Violation
  methodScores : List FunctionScore
deriving DecidableEq, Repr

/-- `base.FileScore` (dataclass). -/
structure FileScore where
  filePath : String
  overallScore : Int
  classification : String
  functionScores : List FunctionScore
  classScores : List ClassScore
  redFlags : List Violation
deriving DecidableEq, Repr

/-- A Python `ast.alias` appearing in an import statement. -/
structure PyAlias where
  name : String
  asname : Option String
deriving DecidableEq, Repr

/-- The `ast.arguments` object of a function definition (names only; the
parameter-count rule reads nothing else). -/
structure PyArguments where
  posonlyargs : List String := []
  args : List String := []
  vararg : Option String := none
  kwonlyargs : List String := []
  kwarg : Option String := none
deriving DecidableEq, Repr

/-- Binary-operator kinds distinguished by `MixedIOLogicRule` (`ast.Add` …
`ast.Mod`); every other operator is `other`. -/
inductive PyBinOp where
  | add | sub | mult | div | mod | other
deriving DecidableEq, Repr

/-- Python syntax-tree nodes, covering every node kind any embedded function
inspects.  Each constructor carries the source line (`lineno`). -/
inductive Node where
  | module (body : List Node)
  | functionDef (name : String) (args : PyArguments) (body : List Node) (lineno : Nat)
  | asyncFunctionDef (name : String) (args : PyArguments) (body : List Node) (lineno : Nat)
  | classDef (name : String) (body : List Node) (lineno : Nat)
  | ifStmt (test : Node) (body : List Node) (orelse : List Node) (lineno : Nat)
  | forStmt (target : Node) (iter : Node) (body : List Node) (orelse : List Node) (lineno : Nat)
  | asyncForStmt (target : Node) (iter : Node) (body : List Node) (orelse : List Node) (lineno : Nat)
  | whileStmt (test : Node) (body : List Node) (orelse : List Node) (lineno : Nat)
  | tryStmt (body : List Node) (handlers : List Node) (orelse : List Node) (finalbody : List Node) (lineno : Nat)
  | exceptHandler (type : Option Node) (body : List Node) (lineno : Nat)
  | ifExp (test : Node) (body : Node) (orelse : Node) (lineno : Nat)
  | matchStmt (subject : Node) (cases : List Node) (lineno : Nat)
  | matchCase (body : List Node)
  | withStmt (items : List Node) (body : List Node) (lineno : Nat)
  | importStmt (names : List PyAlias) (lineno : Nat)
  | importFrom (module : Option String) (names : List PyAlias) (lineno : Nat)
  | globalStmt (names : List String) (lineno : Nat)
  | assign (targets : List Node) (value : Node) (lineno : Nat)
  | augAssign (target : Node) (op : PyBinOp) (value : Node) (lineno : Nat)
  | exprStmt (value : Node) (lineno : Nat)
  | returnStmt (value : Option Node) (lineno : Nat)
  | assertStmt (test : Node) (lineno : Nat)
  | passStmt (lineno : Nat)
  | breakStmt (lineno : Nat)
  | continueStmt (lineno : Nat)
  | call (func : Node) (args : List Node) (lineno : Nat)
  | name (id : String) (lineno : Nat)
  | attribute (value : Node) (attr : String) (lineno : Nat)
  | constant (lineno : Nat)
  | binOp (left : Node) (op : PyBinOp) (right : Node) (lineno : Nat)
  | compare (left : Node) (comparators : List Node) (lineno : Nat)
  | tupleExpr (elts : List Node) (lineno : Nat)
  | lambdaExpr (body : Node) (lineno : Nat)

/-- `ast.iter_child_nodes`: direct children in Python field order. -/
def Node.children : Node → List Node
  | .module body => body
  | .functionDef _ _ body _ => body
  | .asyncFunctionDef _ _ body _ => body
  | .classDef _ body _ => body
  | .ifStmt test body orelse _ => test :: (body ++ orelse)
  | .forStmt target iter body orelse _ => target :: iter :: (body ++ orelse)
  | .asyncForStmt target iter body orelse _ => target :: iter :: (body ++ orelse)
  | .whileStmt test body orelse _ => test :: (body ++ orelse)
  | .tryStmt body handlers orelse finalbody _ => body ++ handlers ++ orelse ++ finalbody
  | .exceptHandler (some t) body _ => t :: body
  | .exceptHandler none body _ => body
  | .ifExp test body orelse _ => [test, body, orelse]
  | .matchStmt subject cases _ => subject :: cases
  | .matchCase body => body
  | .withStmt items body _ => items ++ body
  | .importStmt _ _ => []
  | .importFrom _ _ _ => []
  | .globalStmt _ _ => []
  | .assign targets value _ => targets ++ [value]
  | .augAssign target _ value _ => [target, value]
  | .exprStmt value _ => [value]
  | .returnStmt (some v) _ => [v]
  | .returnStmt none _ => []
  | .assertStmt test _ => [test]
  | .passStmt _ => []
  | .breakStmt _ => []
  | .continueStmt _ => []
  | .call func args _ => func :: args
  | .name _ _ => []
  | .attribute value _ _ => [value]
  | .constant _ => []
  | .binOp left _ right _ => [left, right]
  | .compare left comparators _ => left :: comparators
  | .tupleExpr elts _ => elts
  | .lambdaExpr body _ => [body]

/-- Number of `Node` subterms of a tree, the node itself included.  Used as
traversal fuel for `walk`. -/
def Node.size : Node → Nat
  | .module body => 1 + sizeList body
  | .functionDef _ _ body _ => 1 + sizeList body
  | .asyncFunctionDef _ _ body _ => 1 + sizeList body
  | .classDef _ body _ => 1 + sizeList body
  | .ifStmt test body orelse _ => 1 + test.size + sizeList body + sizeList orelse
  | .forStmt target iter body orelse _ => 1 + target.size + iter.size + sizeList body + sizeList orelse
  | .asyncForStmt target iter body orelse _ => 1 + target.size + iter.size + sizeList body + sizeList orelse
  | .whileStmt test body orelse _ => 1 + test.size + sizeList body + sizeList orelse
  | .tryStmt body handlers orelse finalbody _ =>
      1 + sizeList body + sizeList handlers + sizeList orelse + sizeList finalbody
  | .exceptHandler (some t) body _ => 1 + t.size + sizeList body
  | .exceptHandler none body _ => 1 + sizeList body
  | .ifExp test body orelse _ => 1 + test.size + body.size + orelse.size
  | .matchStmt subject cases _ => 1 + subject.size + sizeList cases
  | .matchCase body => 1 + sizeList body
  | .withStmt items body _ => 1 + sizeList items + sizeList body
  | .importStmt _ _ => 1
  | .importFrom _ _ _ => 1
  | .globalStmt _ _ => 1
  | .assign targets value _ => 1 + sizeList targets + value.size
  | .augAssign target _ value _ => 1 + target.size + value.size
  | .exprStmt value _ => 1 + value.size
  | .returnStmt (some v) _ => 1 + v.size
  | .returnStmt none _ => 1
  | .assertStmt test _ => 1 + test.size
  | .passStmt _ => 1
  | .breakStmt _ => 1
  | .continueStmt _ => 1
  | .call func args _ => 1 + func.size + sizeList args
  | .name _ _ => 1
  | .attribute value _ _ => 1 + value.size
  | .constant _ => 1
  | .binOp left _ right _ => 1 + left.size + right.size
  | .compare left comparators _ => 1 + left.size + sizeList comparators
  | .tupleExpr elts _ => 1 + sizeList elts
  | .lambdaExpr body _ => 1 + body.size
where
  sizeList : List Node → Nat
    | [] => 0
    | n :: ns => n.size + sizeList ns

/-- Breadth-first traversal queue of `ast.walk`: pop the front node, emit it,
append its children.  Structurally recursive on the fuel. -/
def walkAux : Nat → List Node → List Node
  | 0, _ => []
  | _ + 1, [] => []
  | fuel + 1, n :: rest => n :: walkAux fuel (rest ++ n.children)

/-- `ast.walk(n)`: all nodes of the tree in breadth-first order, starting with
`n` itself.  See the header comment for why the fuel always suffices. -/
def walk (n : Node) : List Node :=
  walkAux (n.size + 1) [n]

/-- `getattr(child, 'lineno', default)`: every modelled node kind except
`Module` and `match_case` carries a line number. -/
def Node.linenoOr (default : Nat) : Node → Nat
  | .module _ => default
  | .matchCase _ => default
  | .functionDef _ _ _ ln => ln
  | .asyncFunctionDef _ _ _ ln => ln
  | .classDef _ _ ln => ln
  | .ifStmt _ _ _ ln => ln
  | .forStmt _ _ _ _ ln => ln
  | .asyncForStmt _ _ _ _ ln => ln
  | .whileStmt _ _ _ ln => ln
  | .tryStmt _ _ _ _ ln => ln
  | .exceptHandler _ _ ln => ln
  | .ifExp _ _ _ ln => ln
  | .matchStmt _ _ ln => ln
  | .withStmt _ _ ln => ln
  | .importStmt _ ln => ln
  | .importFrom _ _ ln => ln
  | .globalStmt _ ln => ln
  | .assign _ _ ln => ln
  | .augAssign _ _ _ ln => ln
  | .exprStmt _ ln => ln
  | .returnStmt _ ln => ln
  | .assertStmt _ ln => ln
  | .passStmt ln => ln
  | .breakStmt ln => ln
  | .continueStmt ln => ln
  | .call _ _ ln => ln
  | .name _ ln => ln
  | .attribute _ _ ln => ln
  | .constant ln => ln
  | .binOp _ _ _ ln => ln
  | .compare _ _ ln => ln
  | .tupleExpr _ ln => ln
  | .lambdaExpr _ ln => ln

/-- `isinstance(node, (ast.FunctionDef, ast.AsyncFunctionDef))`. -/
def Node.isFunctionNode : Node → Bool
  | .functionDef .. => true
  | .asyncFunctionDef .. => true
  | _ => false

/-- Name of a function-definition node (only queried on such nodes). -/
def Node.funcName : Node → String
  | .functionDef nm _ _ _ => nm
  | .asyncFunctionDef nm _ _ _ => nm
  | _ => ""

/-- Line number of a function-definition node (only queried on such nodes). -/
def Node.funcLineno : Node → Nat
  | .functionDef _ _ _ ln => ln
  | .asyncFunctionDef _ _ _ ln => ln
  | _ => 0

/-- `module_name.split('.')[0]`: the leading component before the first dot. -/
def topLevelModule (s : String) : String :=
  ⟨s.toList.takeWhile (· ≠ '.')⟩

/-- A character matched by the class `[a-z0-9]` (the source lowercases the
name before splitting, so ASCII lower-case letters and digits). -/
def isLowerAlnum (c : Char) : Bool :=
  ('a' ≤ c && c ≤ 'z') || ('0' ≤ c && c ≤ '9')

/-- `re.split(r"[^a-z0-9]+", s)` followed by dropping empty pieces: the
maximal runs of `[a-z0-9]` characters. -/
def alnumTokens (s : String) : List String :=
  (go s.toList []).reverse
where
  go : List Char → List Char → List String
    | [], acc => if acc.isEmpty then [] else [⟨acc.reverse⟩]
    | c :: cs, acc =>
        if isLowerAlnum c then go cs (c :: acc)
        else if acc.isEmpty then go cs []
        else ⟨acc.reverse⟩ :: go cs []

/-- `needle in haystack` for Python strings (contiguous substring test). -/
def strContainsSub (haystack needle : String) : Bool :=
  go haystack.toList
where
  isPref : List Char → List Char → Bool
    | [], _ => true
    | _ :: _, [] => false
    | a :: as, b :: bs => a == b && isPref as bs
  go : List Char → Bool
    | [] => isPref needle.toList []
    | c :: cs => isPref needle.toList (c :: cs) || go cs

/-! ## Analysis context (`ast_utils.AnalysisContext`, `build_context`)

The `ASTVisitor` traverses the whole tree collecting imports, names declared
`global`, and the function/class name inventories.  The visitor's traversal is
depth-first while `walk` is breadth-first; the context's `imports` and
`global_variables` are sets (queried by membership only) and `functions` /
`classes` are read by no rule, so collecting over `walk` is observationally
identical. -/

structure AnalysisContext where
  imports : List String := []
  globalVariables : List String := []
  functions : List String := []
  classes : List String := []
deriving Repr

/-- `ast_utils.build_context`. -/
def buildContext (tree : Node) : AnalysisContext :=
  { imports := (walk tree).flatMap fun n =>
      match n with
      | .importStmt names _ => names.map (·.name)
      | .importFrom (some m) _ _ => [m]
      | _ => []
    globalVariables := (walk tree).flatMap fun n =>
      match n with
      | .globalStmt names _ => names
      | _ => []
    functions := (walk tree).flatMap fun n =>
      match n with
      | .functionDef nm _ _ _ => [nm]
      | .asyncFunctionDef nm _ _ _ => [nm]
      | _ => []
    classes := (walk tree).flatMap fun n =>
      match n with
      | .classDef nm _ _ => [nm]
      | _ => [] }

/-! ## Rule 1: `FileIORule` (`rules/file_io_rule.py`) -/

def fileIoFunctions : List String :=
  ["open", "read", "write", "close", "seek", "tell",
   "remove", "mkdir", "rmdir", "exists", "isfile", "isdir",
   "listdir", "scandir", "walk", "glob", "rglob"]

def fileIoModules : List String := ["os", "pathlib", "shutil", "io", "tempfile"]

def fileIoClasses : List String :=
  ["Path", "PurePath", "PosixPath", "WindowsPath",
   "FileIO", "TextIOWrapper", "BufferedReader", "BufferedWriter",
   "TemporaryFile", "NamedTemporaryFile"]

/-- `FileIORule._is_io_function_name`. -/
def isIoFunctionName (functionName : String) : Bool :=
  let tokens := alnumTokens functionName.toLower
  ["read", "write", "file", "dir", "path", "io", "temp"].any tokens.contains

/-- `FileIORule._contains_io_operation`. -/
def containsIoOperation (n : Node) : Bool :=
  (match n with
   | .call (.name f _) _ _ => fileIoFunctions.contains f
   | .call (.attribute (.name v _) _ _) _ _ => fileIoClasses.contains v
   | _ => false) ||
  (walk n).any fun c =>
    match c with
    | .name id _ => fileIoModules.contains id
    | _ => false

/-- `FileIORule.evaluate`. -/
def evalFileIoRule (n : Node) : List Violation :=
  if !n.isFunctionNode then []
  else if isIoFunctionName n.funcName then []
  else
    match (walk n).find? containsIoOperation with
    | some child =>
        [{ ruleName := "Direct File I/O in Logic",
           description := "Direct file I/O in business logic",
           pointsDeducted := 10,
           lineNumber := child.linenoOr n.funcLineno,
           functionName := n.funcName,
           isRedFlag := false }]
    | none => []

/-! ## Rule 2: `TimeUsageRule` (`rules/time_usage_rule.py`) -/

def timeFunctions : List String :=
  ["time.time", "time.sleep", "time.monotonic", "time.perf_counter",
   "time.process_time", "time.thread_time", "time.time_ns",
   "datetime.now", "datetime.today", "datetime.utcnow",
   "datetime.timestamp", "date.today", "datetime.datetime.now",
   "datetime.datetime.today", "datetime.datetime.utcnow"]

def timeModules : List String := ["time", "datetime", "date"]

/-- `TimeUsageRule._contains_time_operation`. -/
def containsTimeOperation (n : Node) : Bool :=
  (match n with
   | .call (.name f _) _ _ => timeFunctions.contains f
   | .call (.attribute (.name m _) meth _) _ _ =>
       timeModules.contains m && timeFunctions.contains (m ++ "." ++ meth)
   | .call (.attribute (.attribute (.name m _) cls _) meth _) _ _ =>
       timeModules.contains m && timeFunctions.contains (m ++ "." ++ cls ++ "." ++ meth)
   | _ => false) ||
  (walk n).any fun c =>
    match c with
    | .importStmt names _ => names.any fun a => timeModules.contains a.name
    | .importFrom (some m) _ _ => timeModules.contains m
    | _ => false

/-- `TimeUsageRule.evaluate`. -/
def evalTimeUsageRule (n : Node) : List Violation :=
  if !n.isFunctionNode then []
  else
    match (walk n).find? containsTimeOperation with
    | some child =>
        [{ ruleName := "Non-Deterministic Time Usage",
           description := "Non-deterministic time usage makes testing difficult",
           pointsDeducted := 10,
           lineNumber := child.linenoOr n.funcLineno,
           functionName := n.funcName,
           isRedFlag := true }]
    | none => []

/-! ## Rule 3: `RandomnessRule` (`rules/randomness_rule.py`) -/

def randomFunctions : List String :=
  ["random.random", "random.randint", "random.randrange", "random.choice",
   "random.shuffle", "random.sample", "random.uniform", "random.triangular",
   "random.betavariate", "random.expovariate", "random.gammavariate",
   "random.gauss", "random.lognormvariate", "random.normalvariate",
   "random.paretovariate", "random.vonmisesvariate", "random.weibullvariate",
   "random.getrandbits", "random.seed", "random.getstate", "random.setstate",
   "numpy.random.random", "numpy.random.randint", "numpy.random.rand",
   "numpy.random.randn", "numpy.random.choice", "numpy.random.shuffle",
   "numpy.random.uniform", "numpy.random.normal", "numpy.random.binomial",
   "numpy.random.poisson", "numpy.random.exponential",
   "secrets.randbelow", "secrets.choice", "secrets.token_bytes",
   "secrets.token_hex", "secrets.token_urlsafe", "secrets.compare_digest",
   "uuid.uuid1", "uuid.uuid3", "uuid.uuid4", "uuid.uuid5",
   "os.urandom", "os.getrandom"]

def randomModules : List String := ["random", "numpy", "secrets", "uuid", "os"]

/-- `RandomnessRule._contains_random_operation`. -/
def containsRandomOperation (n : Node) : Bool :=
  (match n with
   | .call (.name f _) _ _ => ["random", "randint", "choice", "shuffle"].contains f
   | .call (.attribute (.name m _) meth _) _ _ =>
       randomModules.contains m && randomFunctions.contains (m ++ "." ++ meth)
   | .call (.attribute (.attribute (.name m _) cls _) meth _) _ _ =>
       randomModules.contains m && randomFunctions.contains (m ++ "." ++ cls ++ "." ++ meth)
   | _ => false) ||
  (walk n).any fun c =>
    match c with
    | .importStmt names _ => names.any fun a => randomModules.contains a.name
    | .importFrom (some m) _ _ => randomModules.contains m
    | _ => false

/-- `RandomnessRule.evaluate`. -/
def evalRandomnessRule (n : Node) : List Violation :=
  if !n.isFunctionNode then []
  else
    match (walk n).find? containsRandomOperation with
    | some child =>
        [{ ruleName := "Randomness Usage",
           description := "Randomness usage makes testing non-deterministic",
           pointsDeducted := 10,
           lineNumber := child.linenoOr n.funcLineno,
           functionName := n.funcName,
           isRedFlag := true }]
    | none => []

/-! ## Rule 4: `GlobalStateRule` (`rules/global_state_rule.py`) -/

/-- `GlobalStateRule._is_global_assignment`. -/
def isGlobalAssignment (ctx : AnalysisContext) (target : Node) : Bool :=
  match target with
  | .name id _ =>
      ctx.globalVariables.contains id ||
      ctx.imports.any fun importName => id == topLevelModule importName
  | .attribute (.name v _) _ _ => ["os", "sys", "config", "settings"].contains v
  | _ => false

/-- `GlobalStateRule._contains_global_mutation`. -/
def containsGlobalMutation (ctx : AnalysisContext) (n : Node) : Bool :=
  (match n with
   | .globalStmt _ _ => true
   | _ => false) ||
  (match n with
   | .assign targets _ _ => targets.any (isGlobalAssignment ctx)
   | _ => false) ||
  (match n with
   | .augAssign (.name id _) _ _ _ => ctx.globalVariables.contains id
   | _ => false) ||
  (match n with
   | .attribute (.name v _) _ _ => ["os", "sys", "config", "settings", "globals"].contains v
   | _ => false) ||
  (match n with
   | .call (.attribute (.name v _) attr _) _ _ =>
       ["register", "unregister", "update", "set", "clear", "append", "extend"].contains attr &&
       ["registry", "cache", "pool", "manager"].contains v
   | _ => false)

/-- `GlobalStateRule.evaluate`. -/
def evalGlobalStateRule (n : Node) (ctx : AnalysisContext) : List Violation :=
  if !n.isFunctionNode then []
  else
    match (walk n).find? (containsGlobalMutation ctx) with
    | some child =>
        [{ ruleName := "Global State Mutation",
           description := "Global state mutation makes testing unpredictable",
           pointsDeducted := 10,
           lineNumber := child.linenoOr n.funcLineno,
           functionName := n.funcName,
           isRedFlag := true }]
    | none => []

/-! ## Rule 5: `MixedIOLogicRule` (`rules/mixed_io_logic_rule.py`) -/

def mixedIoFileOps : List String :=
  ["open", "read", "write", "close", "seek", "tell", "remove", "mkdir"]

def mixedIoConsoleOps : List String := ["print", "input", "raw_input"]

def mixedIoModules : List String :=
  ["os", "pathlib", "shutil", "io", "tempfile",
   "requests", "urllib", "socket", "http", "https",
   "sqlite3", "psycopg2", "mysql", "mongodb"]

/-- `MixedIOLogicRule._is_pure_io_function` (substring test on the lowercased
function name). -/
def isPureIoFunction (n : Node) : Bool :=
  if !n.isFunctionNode then false
  else
    let functionName := n.funcName.toLower
    ["read", "write", "open", "close",
     "fetch", "send", "receive", "connect", "download",
     "upload", "import", "export", "print", "display"].any
      (strContainsSub functionName)

/-- `MixedIOLogicRule._count_io_operations`. -/
def countIoOperations (n : Node) : Nat :=
  ((walk n).map fun child =>
    match child with
    | .call (.name f _) _ _ =>
        if mixedIoFileOps.contains f || mixedIoConsoleOps.contains f then 1 else 0
    | .call (.attribute (.name m _) _ _) _ _ =>
        if mixedIoModules.contains m then 1 else 0
    | _ => 0).sum

/-- `MixedIOLogicRule._count_logic_operations`. -/
def countLogicOperations (n : Node) : Nat :=
  ((walk n).map fun child =>
    match child with
    | .ifStmt .. => 1
    | .forStmt .. => 1
    | .whileStmt .. => 1
    | .tryStmt .. => 1
    | .binOp _ op _ _ =>
        if op == PyBinOp.add || op == PyBinOp.sub || op == PyBinOp.mult ||
           op == PyBinOp.div || op == PyBinOp.mod then 1 else 0
    | .compare .. => 1
    | .call (.name f _) _ _ =>
        if !mixedIoFileOps.contains f && !mixedIoConsoleOps.contains f then 1 else 0
    | _ => 0).sum

/-- `MixedIOLogicRule.evaluate`. -/
def evalMixedIoLogicRule (n : Node) : List Violation :=
  if !n.isFunctionNode then []
  else if isPureIoFunction n then []
  else if countIoOperations n > 0 && countLogicOperations n > 0 then
    [{ ruleName := "Mixed I/O and Logic",
       description := "Mixed I/O and business logic makes testing difficult",
       pointsDeducted := 8,
       lineNumber := n.funcLineno,
       functionName := n.funcName,
       isRedFlag := true }]
  else []

/-! ## Rule 6: `BranchExplosionRule` (`rules/branch_explosion_rule.py`)

`_count_branches` iterates over `ast.walk(node)`.  For a child that is not an
`If`, `For` or `AsyncFor`, control reaches
`elif isinstance(child, (ast.While, ast.AsyncWhile))`, whose tuple argument is
evaluated before the isinstance test; `ast.AsyncWhile` does not exist, so an
`AttributeError` is raised — even for a `While` child.  Since the first node
yielded by `ast.walk` is the function node itself, the count raises on every
function. -/

/-- One iteration of `_count_branches`' loop: the branch contribution of a
walked child, or the `AttributeError` described above. -/
def branchCountStep (child : Node) : Except PyErr Nat :=
  match child with
  | .ifStmt _ _ orelse _ =>
      .ok (1 + (orelse.filter fun e => match e with | .ifStmt .. => true | _ => false).length)
  | .forStmt .. => .ok 1
  | .asyncForStmt .. => .ok 1
  | _ => .error .attributeError

/-- `BranchExplosionRule._count_branches`. -/
def countBranches (n : Node) : Except PyErr Nat :=
  (walk n).foldlM (fun acc child => do pure (acc + (← branchCountStep child))) 0

/-- `BranchExplosionRule.evaluate`. -/
def evalBranchExplosionRule (n : Node) : Except PyErr (List Violation) :=
  if !n.isFunctionNode then .ok []
  else do
    let branchCount ← countBranches n
    if branchCount > 3 then
      let excess := branchCount - 3
      pure [{ ruleName := "Branch Explosion Risk",
              description := s!"Excessive branching: {branchCount} branches (threshold: 3)",
              pointsDeducted := excess * 2,
              lineNumber := n.funcLineno,
              functionName := n.funcName,
              isRedFlag := false }]
    else
      pure []

/-! ## Rule 7: `ExceptionControlFlowRule` (`rules/exception_control_flow_rule.py`) -/

def controlFlowExceptions : List String :=
  ["ValueError", "TypeError", "KeyError", "IndexError", "AttributeError",
   "StopIteration", "LookupError", "RuntimeError", "AssertionError"]

/-- `ExceptionControlFlowRule._is_empty_except_handler`: the loop returns
`False` at the first statement that is neither `Pass` nor an expression
statement holding a constant; otherwise the final line returns
`len(body) > 0 and all(isinstance(stmt, (Pass, Expr)))`. -/
def isEmptyExceptHandler (body : List Node) : Bool :=
  if body.isEmpty then true
  else if body.all fun s =>
      match s with
      | .passStmt _ => true
      | .exprStmt (.constant _) _ => true
      | _ => false then
    decide (body.length > 0) && body.all fun s =>
      match s with
      | .passStmt _ => true
      | .exprStmt _ _ => true
      | _ => false
  else false

/-- `ExceptionControlFlowRule._is_broad_exception_handler`. -/
def isBroadExceptHandler (type? : Option Node) : Bool :=
  match type? with
  | none => true
  | some (.name id _) => ["Exception", "BaseException"].contains id
  | some (.tupleExpr elts _) =>
      elts.any fun e =>
        match e with
        | .name id _ => ["Exception", "BaseException"].contains id
        | _ => false
  | some _ => false

/-- `ExceptionControlFlowRule._uses_control_flow_exceptions`. -/
def usesControlFlowExceptions (type? : Option Node) : Bool :=
  match type? with
  | none => false
  | some (.name id _) => controlFlowExceptions.contains id
  | some (.tupleExpr elts _) =>
      elts.any fun e =>
        match e with
        | .name id _ => controlFlowExceptions.contains id
        | _ => false
  | some _ => false

/-- `ExceptionControlFlowRule._has_exception_based_loop`. -/
def hasExceptionBasedLoop (body handlers : List Node) : Bool :=
  (handlers.any fun h =>
    match h with
    | .exceptHandler (some (.name "StopIteration" _)) _ _ => true
    | _ => false) ||
  ((body.any fun s =>
      match s with
      | .forStmt .. => true
      | .whileStmt .. => true
      | _ => false) &&
   handlers.any fun h =>
     match h with
     | .exceptHandler _ hbody _ =>
         hbody.any fun s =>
           match s with
           | .breakStmt _ => true
           | .continueStmt _ => true
           | _ => false
     | _ => false)

/-- `ExceptionControlFlowRule._is_exception_driven_control_flow`. -/
def isExceptionDrivenControlFlow (body handlers : List Node) : Bool :=
  (handlers.any fun h =>
    match h with
    | .exceptHandler _ hbody _ => isEmptyExceptHandler hbody
    | _ => false) ||
  (handlers.any fun h =>
    match h with
    | .exceptHandler type? _ _ => isBroadExceptHandler type?
    | _ => false) ||
  (handlers.any fun h =>
    match h with
    | .exceptHandler type? _ _ => usesControlFlowExceptions type?
    | _ => false) ||
  hasExceptionBasedLoop body handlers

/-- `ExceptionControlFlowRule.evaluate`. -/
def evalExceptionControlFlowRule (n : Node) : List Violation :=
  if !n.isFunctionNode then []
  else
    match (walk n).find? fun child =>
        match child with
        | .tryStmt body handlers _ _ _ => isExceptionDrivenControlFlow body handlers
        | _ => false with
    | some child =>
        [{ ruleName := "Exception-Driven Control Flow",
           description := "Exception-driven control flow makes testing difficult",
           pointsDeducted := 5,
           lineNumber := child.linenoOr n.funcLineno,
           functionName := n.funcName,
           isRedFlag := true }]
    | none => []

/-! ## Rule 8: `ConstructorSideEffectsRule` (`rules/constructor_side_effects_rule.py`) -/

def ctorFileOps : List String := ["open", "write", "read", "remove", "mkdir"]
def ctorNetworkOps : List String := ["connect", "send", "receive", "request"]
def ctorDbOps : List String := ["execute", "commit", "cursor", "connect"]
def ctorProcessOps : List String := ["start", "stop", "kill", "run"]
def ctorThreadOps : List String := ["start", "join", "lock", "acquire"]
def ctorGlobalStateOps : List String := ["register", "unregister", "update", "modify"]

def ctorSideEffectModules : List String :=
  ["os", "pathlib", "shutil", "requests", "urllib", "socket",
   "sqlite3", "psycopg2", "mysql", "threading", "multiprocessing",
   "logging", "subprocess", "sys"]

def ctorSideEffectMethods : List String :=
  ["open", "write", "read", "connect", "start", "stop",
   "register", "unregister", "update", "modify", "execute",
   "commit", "cursor", "send", "receive"]

/-- `ConstructorSideEffectsRule._contains_side_effect_operation`. -/
def containsSideEffectOperation (n : Node) : Bool :=
  (match n with
   | .call (.name f _) _ _ =>
       ctorFileOps.contains f || ctorNetworkOps.contains f || ctorDbOps.contains f ||
       ctorProcessOps.contains f || ctorThreadOps.contains f || ctorGlobalStateOps.contains f
   | .call (.attribute (.name m _) meth _) _ _ =>
       ctorSideEffectModules.contains m || ctorSideEffectMethods.contains meth
   | _ => false) ||
  (match n with
   | .assign targets _ _ =>
       targets.any fun t =>
         match t with
         | .attribute (.name v _) _ _ =>
             ["registry", "cache", "pool", "manager", "globals"].contains v
         | _ => false
   | _ => false) ||
  (match n with
   | .importStmt _ _ => true
   | .importFrom _ _ _ => true
   | _ => false) ||
  (match n with
   | .call (.name f _) _ _ =>
       ["Thread", "Process", "Pool", "Lock", "Semaphore"].contains f
   | _ => false)

/-- `ConstructorSideEffectsRule._has_constructor_side_effects`. -/
def hasConstructorSideEffects (initMethod : Node) : Bool :=
  (walk initMethod).any containsSideEffectOperation

/-- The first `FunctionDef` literally named `__init__` in a class body
(the rule's `break`-terminated scan). -/
def findInitMethod (body : List Node) : Option Node :=
  body.find? fun item =>
    match item with
    | .functionDef nm _ _ _ => nm == "__init__"
    | _ => false

/-- `ConstructorSideEffectsRule.evaluate` — note the node-kind guard: anything
that is not a `ClassDef` yields no violations. -/
def evalConstructorSideEffectsRule (n : Node) : List Violation :=
  match n with
  | .classDef clsName body _ =>
      match findInitMethod body with
      | some initMethod =>
          if hasConstructorSideEffects initMethod then
            [{ ruleName := "Constructor Side Effects",
               description := "Constructor has side effects that make testing difficult",
               pointsDeducted := 15,
               lineNumber := initMethod.funcLineno,
               functionName := clsName ++ ".__init__",
               isRedFlag := true }]
          else []
      | none => []
  | _ => []

/-! ## Rule 9: `HiddenImportsRule` (`rules/hidden_imports_rule.py`) -/

def allowedImports : List String :=
  ["typing", "collections", "itertools", "functools",
   "datetime", "re", "json", "csv", "math", "random"]

def externalIndicators : List String :=
  ["requests", "numpy", "pandas", "scipy", "matplotlib",
   "flask", "django", "fastapi", "sqlalchemy", "pytest",
   "click", "black", "pylint", "mypy", "setuptools"]

/-- `HiddenImportsRule._is_external_dependency`. -/
def isExternalDependency (moduleName : String) : Bool :=
  let topLevel := topLevelModule moduleName
  if allowedImports.contains topLevel then false
  else externalIndicators.contains topLevel

/-- `HiddenImportsRule._is_problematic_import`. -/
def isProblematicImport (n : Node) : Bool :=
  match n with
  | .importStmt names _ => names.any fun a => isExternalDependency a.name
  | .importFrom (some m) _ _ => isExternalDependency m
  | _ => false

/-- An `Import` or `ImportFrom` node. -/
def Node.isImportNode : Node → Bool
  | .importStmt _ _ => true
  | .importFrom _ _ _ => true
  | _ => false

/-- `HiddenImportsRule.evaluate`: the loop breaks at the first import that is
problematic (imports that are not problematic do not break the scan). -/
def evalHiddenImportsRule (n : Node) : List Violation :=
  if !n.isFunctionNode then []
  else
    match (walk n).find? fun c => c.isImportNode && isProblematicImport c with
    | some child =>
        [{ ruleName := "Hidden Dependencies via Imports-in-Function",
           description := "Hidden dependency via import inside function",
           pointsDeducted := 5,
           lineNumber := child.linenoOr n.funcLineno,
           functionName := n.funcName,
           isRedFlag := false }]
    | none => []

/-! ## Rule 10: `ParameterCountRule` (`rules/parameter_count_rule.py`) -/

/-- `ParameterCountRule._should_ignore_parameter`. -/
def shouldIgnoreParameter (paramName : String) : Bool :=
  paramName == "self"

/-- `ParameterCountRule._count_effective_parameters`. -/
def countEffectiveParameters (n : Node) : Nat :=
  match n with
  | .functionDef _ args _ _ => countOf args
  | .asyncFunctionDef _ args _ _ => countOf args
  | _ => 0
where
  countOf (args : PyArguments) : Nat :=
    (args.args.filter fun a => !shouldIgnoreParameter a).length +
    (args.posonlyargs.filter fun a => !shouldIgnoreParameter a).length +
    (args.kwonlyargs.filter fun a => !shouldIgnoreParameter a).length +
    (match args.vararg with
     | some v => if shouldIgnoreParameter v then 0 else 1
     | none => 0) +
    (match args.kwarg with
     | some v => if shouldIgnoreParameter v then 0 else 1
     | none => 0)

/-- `ParameterCountRule.evaluate`. -/
def evalParameterCountRule (n : Node) : List Violation :=
  if !n.isFunctionNode then []
  else
    let paramCount := countEffectiveParameters n
    if paramCount > 5 then
      [{ ruleName := "Excessive Parameter Count",
         description := s!"Excessive parameters: {paramCount} (threshold: 5)",
         pointsDeducted := 5,
         lineNumber := n.funcLineno,
         functionName := n.funcName,
         isRedFlag := false }]
    else []

/-! ## Rule 11: `ObservabilityRule` (`rules/observability_rule.py`) -/

/-- `ObservabilityRule._has_return_statements` (non-bare returns only). -/
def hasReturnStatements (n : Node) : Bool :=
  (walk n).any fun c =>
    match c with
    | .returnStmt (some _) _ => true
    | _ => false

/-- `ObservabilityRule._has_logging_statements`. -/
def hasLoggingStatements (n : Node) : Bool :=
  (walk n).any fun c =>
    match c with
    | .call (.attribute (.name m _) meth _) _ _ =>
        (m == "logging" && ["debug", "info", "warning", "error", "critical"].contains meth) ||
        m == "print"
    | .call (.name f _) _ _ => f == "print"
    | _ => false

/-- `ObservabilityRule._has_assertions`. -/
def hasAssertions (n : Node) : Bool :=
  (walk n).any fun c =>
    match c with
    | .assertStmt _ _ => true
    | _ => false

/-- `ObservabilityRule._has_observable_side_effects`. -/
def hasObservableSideEffects (n : Node) : Bool :=
  (walk n).any fun c =>
    match c with
    | .call (.name f _) _ _ => ["write", "print", "save", "commit"].contains f
    | .call (.attribute (.name _ _) meth _) _ _ =>
        ["write", "save", "commit", "send", "publish"].contains meth
    | _ => false

/-- `ObservabilityRule._calculate_observability_score`. -/
def calculateObservabilityScore (n : Node) : Nat :=
  (if hasReturnStatements n then 1 else 0) +
  (if hasLoggingStatements n then 1 else 0) +
  (if hasAssertions n then 1 else 0) +
  (if hasObservableSideEffects n then 1 else 0)

/-- `ObservabilityRule.evaluate`. -/
def evalObservabilityRule (n : Node) : List Violation :=
  if !n.isFunctionNode then []
  else if calculateObservabilityScore n == 0 then
    [{ ruleName := "Low Observability",
       description := "Low observability: function lacks return values, logging, or assertions",
       pointsDeducted := 5,
       lineNumber := n.funcLineno,
       functionName := n.funcName,
       isRedFlag := false }]
  else []

/-! ## Rule registry (`rules/rule_registry.py`) -/

/-- The rule classes instantiated in `RuleRegistry.__init__`.  The registry
also imports `ExternalDependencyRule`, but never instantiates it: it does not
appear in `self._rules`. -/
inductive RuleTag where
  | fileIo
  | timeUsage
  | randomness
  | globalState
  | mixedIoLogic
  | branchExplosion
  | exceptionControlFlow
  | constructorSideEffects
  | hiddenImports
  | parameterCount
  | observability
deriving DecidableEq, Repr

/-- Each rule's `rule_name` property. -/
def RuleTag.ruleName : RuleTag → String
  | .fileIo => "Direct File I/O in Logic"
  | .timeUsage => "Non-Deterministic Time Usage"
  | .randomness => "Randomness Usage"
  | .globalState => "Global State Mutation"
  | .mixedIoLogic => "Mixed I/O and Logic"
  | .branchExplosion => "Branch Explosion Risk"
  | .exceptionControlFlow => "Exception-Driven Control Flow"
  | .constructorSideEffects => "Constructor Side Effects"
  | .hiddenImports => "Hidden Dependencies via Imports-in-Function"
  | .parameterCount => "Excessive Parameter Count"
  | .observability => "Low Observability"

/-- `ExternalDependencyRule.rule_name`
(`rules/external_dependency_rule.py`, line 42) — the rule the registry
imports but never registers. -/
def externalDependencyRuleName : String := "External Dependency Count"

/-- `rule.evaluate(node, context)` dispatched over the registered rules.
Pure rules are wrapped in `.ok`; `BranchExplosionRule` can raise. -/
def RuleTag.evaluate : RuleTag → Node → AnalysisContext → Except PyErr (List Violation)
  | .fileIo, n, _ => .ok (evalFileIoRule n)
  | .timeUsage, n, _ => .ok (evalTimeUsageRule n)
  | .randomness, n, _ => .ok (evalRandomnessRule n)
  | .globalState, n, ctx => .ok (evalGlobalStateRule n ctx)
  | .mixedIoLogic, n, _ => .ok (evalMixedIoLogicRule n)
  | .branchExplosion, n, _ => evalBranchExplosionRule n
  | .exceptionControlFlow, n, _ => .ok (evalExceptionControlFlowRule n)
  | .constructorSideEffects, n, _ => .ok (evalConstructorSideEffectsRule n)
  | .hiddenImports, n, _ => .ok (evalHiddenImportsRule n)
  | .parameterCount, n, _ => .ok (evalParameterCountRule n)
  | .observability, n, _ => .ok (evalObservabilityRule n)

/-- `RuleRegistry.get_all_rules`: the fixed instantiation order of
`RuleRegistry.__init__`. -/
def getAllRules : List RuleTag :=
  [.fileIo, .timeUsage, .randomness, .globalState, .mixedIoLogic,
   .branchExplosion, .exceptionControlFlow, .constructorSideEffects,
   .hiddenImports, .parameterCount, .observability]

/-! ## Score calculator (`scoring.py`) -/

/-- Total of `points_deducted` over a violation list. -/
def sumPoints (violations : List Violation) : Nat :=
  (violations.map (·.pointsDeducted)).sum

/-- `ScoreCalculator.calculate_function_score`: baseline 100 minus the total
deduction, clamped below at `min_score = 0`. -/
def calculateFunctionScore (functionName : String) (lineNumber : Nat)
    (violations : List Violation) : FunctionScore :=
  let score : Int := max ((100 : Int) - (sumPoints violations : Int)) 0
  { name := functionName,
    lineNumber := lineNumber,
    baselineScore := 100,
    finalScore := score,
    violations := violations }

/-- The `all_scores` pool built by `ScoreCalculator.aggregate_file_score`
(and, identically, by `TestabilityAnalyzer.analyze_file` lines 58–72):
function finals, then method finals, then a derived constructor score
`max(100 - penalty, 0)` for each class whose constructor penalty is
positive. -/
def aggregationPool (functionScores : List FunctionScore)
    (classScores : List ClassScore) : List Int :=
  functionScores.map (·.finalScore) ++
  classScores.flatMap (fun c => c.methodScores.map (·.finalScore)) ++
  classScores.filterMap fun c =>
    let constructorPenalty := sumPoints c.constructorViolations
    if constructorPenalty > 0 then
      some (max ((100 : Int) - (constructorPenalty : Int)) 0)
    else none

/-- `ScoreCalculator.aggregate_file_score`: `min(all_scores)` when the pool is
non-empty, else the baseline 100. -/
def aggregateFileScore (functionScores : List FunctionScore)
    (classScores : List ClassScore) : Int :=
  match aggregationPool functionScores classScores with
  | [] => 100
  | a :: rest => rest.foldl min a

/-! ## Threshold classifier (`threshold_classifier.py`) -/

/-- `ThresholdClassifier.classify_file_score`: the `file_bands` dict in
insertion order; scores outside every band classify as `Unknown`. -/
def classifyFileScore (score : Int) : String :=
  if 80 ≤ score && score ≤ 100 then "Healthy"
  else if 60 ≤ score && score ≤ 79 then "Caution"
  else if 40 ≤ score && score ≤ 59 then "High Friction"
  else if 0 ≤ score && score ≤ 39 then "Refactor First"
  else "Unknown"

/-! ## Orchestrator (`analyzer.py`, `ast_utils.parse_file`) -/

/-- What the file system and parser hand to `parse_file`: the body of its
`try` either raises on `open()`/decode/parse or produces a tree. -/
inductive RawSource where
  | unreadable
  | undecodable
  | syntaxError
  | parsed (tree : Node)

/-- `ast_utils.parse_file`: `SyntaxError` and `UnicodeDecodeError` are caught
and turned into `None`; an unreadable or missing file makes `open()` raise
`FileNotFoundError`/`OSError`, which the `except` clause does not cover. -/
def parseFile : RawSource → Except PyErr (Option Node)
  | .unreadable => .error .fileNotFoundError
  | .undecodable => .ok none
  | .syntaxError => .ok none
  | .parsed tree => .ok (some tree)

/-- Running every registered rule against one node, concatenating the
violations in registration order (`for rule in ...: violations.extend(...)`).
An exception in any rule propagates. -/
def runAllRules (n : Node) (ctx : AnalysisContext) : Except PyErr (List Violation) :=
  getAllRules.foldlM (fun acc rule => do pure (acc ++ (← rule.evaluate n ctx))) []

/-- The nodes selected by `_analyze_functions`' loop:
`for node in ast.walk(tree): if isinstance(node, (FunctionDef, AsyncFunctionDef))`.
Note this walks the whole tree, so methods defined inside classes are
selected too. -/
def functionNodesOf (tree : Node) : List Node :=
  (walk tree).filter Node.isFunctionNode

/-- Names of the nodes `_analyze_functions` enumerates. -/
def enumeratedFunctionNames (tree : Node) : List String :=
  (functionNodesOf tree).map Node.funcName

/-- `TestabilityAnalyzer._analyze_functions`. -/
def analyzeFunctions (tree : Node) (ctx : AnalysisContext) :
    Except PyErr (List FunctionScore) :=
  (functionNodesOf tree).mapM fun n => do
    let violations ← runAllRules n ctx
    pure (calculateFunctionScore n.funcName n.funcLineno violations)

/-- The body scan of `_analyze_classes`: a direct class-body item that is a
`FunctionDef` named `__init__` feeds `constructor_violations`; any other
`FunctionDef`/`AsyncFunctionDef` item becomes a method score. -/
def analyzeClassBody (ctx : AnalysisContext) (body : List Node) :
    Except PyErr (List Violation × List FunctionScore) :=
  body.foldlM
    (fun (acc : List Violation × List FunctionScore) item =>
      match item with
      | .functionDef "__init__" _ _ _ => do
          let violations ← runAllRules item ctx
          pure (acc.1 ++ violations, acc.2)
      | .functionDef _ _ _ _ => do
          let violations ← runAllRules item ctx
          pure (acc.1, acc.2 ++ [calculateFunctionScore item.funcName item.funcLineno violations])
      | .asyncFunctionDef _ _ _ _ => do
          let violations ← runAllRules item ctx
          pure (acc.1, acc.2 ++ [calculateFunctionScore item.funcName item.funcLineno violations])
      | _ => pure acc)
    ([], [])

/-- `TestabilityAnalyzer._analyze_classes`. -/
def analyzeClasses (tree : Node) (ctx : AnalysisContext) :
    Except PyErr (List ClassScore) :=
  ((walk tree).filter fun n =>
    match n with
    | .classDef .. => true
    | _ => false).mapM fun n =>
      match n with
      | .classDef clsName body lineNumber => do
          let (constructorViolations, methodScores) ← analyzeClassBody ctx body
          pure { name := clsName,
                 lineNumber := lineNumber,
                 constructorViolations := constructorViolations,
                 methodScores := methodScores }
      | _ => pure { name := "", lineNumber := 0,
                    constructorViolations := [], methodScores := [] }

/-- The red-flag collection of `analyze_file` (lines 82–87): every red-flagged
violation of every collected `FunctionScore`, then every constructor violation
of every class unconditionally. -/
def collectRedFlags (functionScores : List FunctionScore)
    (classScores : List ClassScore) : List Violation :=
  functionScores.flatMap (fun s => s.violations.filter (·.isRedFlag)) ++
  classScores.flatMap (·.constructorViolations)

/-- `TestabilityAnalyzer.analyze_file`. -/
def analyzeFile (src : RawSource) (filePath : String) : Except PyErr FileScore := do
  match ← parseFile src with
  | none =>
      pure { filePath := filePath,
             overallScore := 0,
             classification := "Parse Error",
             functionScores := [],
             classScores := [],
             redFlags := [] }
  | some tree =>
      let ctx := buildContext tree
      let functionScores ← analyzeFunctions tree ctx
      let classScores ← analyzeClasses tree ctx
      let overallScore := aggregateFileScore functionScores classScores
      let classification := classifyFileScore overallScore
      let redFlags := collectRedFlags functionScores classScores
      pure { filePath := filePath,
             overallScore := overallScore,
             classification := classification,
             functionScores := functionScores,
             classScores := classScores,
             redFlags := redFlags }

/-! ## Concrete source trees used as test inputs

Each fixture is the tree `ast.parse` produces for the Python snippet cited in
its doc comment (modulo the node kinds the model omits, per the header). -/

/-- Tree of `def f():\n    pass`. -/
def modOneFunction : Node :=
  .module [.functionDef "f" {} [.passStmt 2] 1]

/-- Tree of `x = 1` (no function or class definitions at all). -/
def modNoFunctions : Node :=
  .module [.assign [.name "x" 1] (.constant 1) 1]

/-- Tree of the `simple_code` fixture of the repository's own
`tests/test_integration.py::test_simple_codebase`:
two top-level functions and a class `Rectangle` with `__init__` and a
method `area`.  That test asserts `len(result.function_scores) == 2`. -/
def simpleCodebaseTree : Node :=
  .module
    [.functionDef "calculate_area" { args := ["length", "width"] }
       [.returnStmt (some (.binOp (.name "length" 4) .mult (.name "width" 4) 4)) 4] 2,
     .functionDef "format_result" { args := ["area"] }
       [.returnStmt (some (.constant 8)) 8] 6,
     .classDef "Rectangle"
       [.functionDef "__init__" { args := ["self", "length", "width"] }
          [.assign [.attribute (.name "self" 14) "length" 14] (.name "length" 14) 14,
           .assign [.attribute (.name "self" 15) "width" 15] (.name "width" 15) 15] 13,
        .functionDef "area" { args := ["self"] }
          [.returnStmt (some (.call (.name "calculate_area" 18)
             [.attribute (.name "self" 18) "length" 18,
              .attribute (.name "self" 18) "width" 18] 18)) 18] 17]
       10]

/-- The `__init__` of `dirtyCtorTree` below: a constructor that opens and
reads a file (`with open('config.txt') as f: self.config = f.read()`). -/
def dirtyInitMethod : Node :=
  .functionDef "__init__" { args := ["self"] }
    [.withStmt [.call (.name "open" 3) [.constant 3] 3]
       [.assign [.attribute (.name "self" 4) "config" 4]
          (.call (.attribute (.name "f" 4) "read" 4) [] 4) 4] 3] 2

/-- The class node wrapping `dirtyInitMethod`
(`class MyClass:` with the file-opening constructor — the fixture of the
repository's own `test_rules.py::test_constructor_with_side_effects`). -/
def dirtyCtorClass : Node :=
  .classDef "MyClass" [dirtyInitMethod] 1

/-- Whole-file tree around `dirtyCtorClass`. -/
def dirtyCtorTree : Node :=
  .module [dirtyCtorClass]

/-- Tree of a class with one non-constructor method `tick` whose body calls
`time.time()` — a method that raises a red-flag (Non-Deterministic Time
Usage) violation. -/
def redFlagMethodTree : Node :=
  .module
    [.classDef "Service"
       [.functionDef "tick" { args := ["self"] }
          [.exprStmt (.call (.attribute (.name "time" 3) "time" 3) [] 3) 3] 2]
       1]

/-- The `tick` method node of `redFlagMethodTree`. -/
def tickMethod : Node :=
  .functionDef "tick" { args := ["self"] }
    [.exprStmt (.call (.attribute (.name "time" 3) "time" 3) [] 3) 3] 2

/-- A function with exactly six branching constructs (six `if` statements),
the claim's worked example for the Branch Explosion rule. -/
def sixBranchFunction : Node :=
  .functionDef "six_branches" { args := ["x"] }
    [.ifStmt (.name "x" 2) [.passStmt 3] [] 2,
     .ifStmt (.name "x" 4) [.passStmt 5] [] 4,
     .ifStmt (.name "x" 6) [.passStmt 7] [] 6,
     .ifStmt (.name "x" 8) [.passStmt 9] [] 8,
     .ifStmt (.name "x" 10) [.passStmt 11] [] 10,
     .ifStmt (.name "x" 12) [.passStmt 13] [] 12] 1

/-- A function whose body contains `import os` — an in-function import whose
top-level module is not in the allow-list. -/
def osImportFunction : Node :=
  .functionDef "load_platform" {} [.importStmt [⟨"os", none⟩] 2] 1

/-- A function whose body contains `import numpy` — an in-function import of
a module in the rule's external-indicator list. -/
def numpyImportFunction : Node :=
  .functionDef "load_array" {} [.importStmt [⟨"numpy", none⟩] 2] 1

/-- A function whose body contains only `import json` — an allow-listed
in-function import. -/
def jsonImportFunction : Node :=
  .functionDef "load_json" {} [.importStmt [⟨"json", none⟩] 2] 1

/-- Modelled from the spec's words (claim-side definition, for comparison
with `aggregateFileScore`): the set over which §4.4 takes the minimum —
"every top-level function's final score, every method's final score, and,
for each class with at least one constructor violation, the derived
constructor score max(0, 100 − sum of constructor violation points)". -/
def specAggregationPool (functionScores : List FunctionScore)
    (classScores : List ClassScore) : List Int :=
  functionScores.map (·.finalScore) ++
  classScores.flatMap (fun c => c.methodScores.map (·.finalScore)) ++
  (classScores.filter fun c => !c.constructorViolations.isEmpty).map
    (fun c => max ((100 : Int) - (sumPoints c.constructorViolations : Int)) 0)

/-- Example inputs for the aggregation claims: two top-level functions
scoring 100 and 40 and a class with a 15-point constructor violation. -/
def exampleFunctionScores : List FunctionScore :=
  [{ name := "f", lineNumber := 1, finalScore := 40, violations := [] },
   { name := "g", lineNumber := 9, finalScore := 100, violations := [] }]

def exampleClassScores : List ClassScore :=
  [{ name := "C", lineNumber := 20,
     constructorViolations :=
       [{ ruleName := "Constructor Side Effects",
          description := "Constructor has side effects that make testing difficult",
          pointsDeducted := 15, lineNumber := 21,
          functionName := "C.__init__", isRedFlag := true }],
     methodScores := [{ name := "m", lineNumber := 25, finalScore := 85, violations := [] }] }]

/-! ## Helper lemmas -/

theorem foldlMin_mem (rest : List Int) (a : Int) : rest.foldl min a ∈ a :: rest := by
  induction rest generalizing a with
  | nil => simp
  | cons b bs ih =>
      simp only [List.foldl_cons]
      have h := ih (min a b)
      rcases List.mem_cons.mp h with h1 | h1
      · rw [h1]
        rcases min_choice a b with hm | hm
        · rw [hm]
          exact List.mem_cons_self _ _
        · rw [hm]
          exact List.mem_cons_of_mem _ (List.mem_cons_self _ _)
      · exact List.mem_cons_of_mem _ (List.mem_cons_of_mem _ h1)

theorem foldlMin_le_init (rest : List Int) (a : Int) : rest.foldl min a ≤ a := by
  induction rest generalizing a with
  | nil => simp
  | cons b bs ih =>
      simp only [List.foldl_cons]
      exact (ih (min a b)).trans (min_le_left _ _)

theorem foldlMin_le (rest : List Int) (a x : Int) (hx : x ∈ a :: rest) :
    rest.foldl min a ≤ x := by
  induction rest generalizing a with
  | nil =>
      simp only [List.mem_singleton] at hx
      rw [hx]
      simp
  | cons b bs ih =>
      simp only [List.foldl_cons]
      rcases List.mem_cons.mp hx with h1 | h1
      · rw [h1]
        exact (foldlMin_le_init bs (min a b)).trans (min_le_left _ _)
      · rcases List.mem_cons.mp h1 with h2 | h2
        · rw [h2]
          exact (foldlMin_le_init bs (min a b)).trans (min_le_right _ _)
        · exact ih (min a b) (List.mem_cons_of_mem _ h2)

theorem sumPoints_pos_of_ne_nil (violations : List Violation)
    (hpos : ∀ v ∈ violations, 0 < v.pointsDeducted) (hne : violations ≠ []) :
    0 < sumPoints violations := by
  match violations with
  | [] => exact absurd rfl hne
  | v :: vs =>
      have hv := hpos v (List.mem_cons_self v vs)
      simp only [sumPoints, List.map_cons, List.sum_cons]
      omega

theorem dirtyCtorScores_eq (classScores : List ClassScore)
    (hpos : ∀ c ∈ classScores, ∀ v ∈ c.constructorViolations, 0 < v.pointsDeducted) :
    (classScores.filterMap fun c =>
      let constructorPenalty := sumPoints c.constructorViolations
      if constructorPenalty > 0 then
        some (max ((100 : Int) - (constructorPenalty : Int)) 0)
      else none)
    = (classScores.filter fun c => !c.constructorViolations.isEmpty).map
        (fun c => max ((100 : Int) - (sumPoints c.constructorViolations : Int)) 0) := by
  induction classScores with
  | nil => rfl
  | cons c rest ih =>
      have hc : ∀ v ∈ c.constructorViolations, 0 < v.pointsDeducted :=
        fun v hv => hpos c (List.mem_cons_self _ _) v hv
      have hrest := ih fun c' h v hv => hpos c' (List.mem_cons_of_mem _ h) v hv
      by_cases hne : c.constructorViolations = []
      · have h0 : sumPoints [] = 0 := rfl
        simp [List.filterMap_cons, List.filter_cons, hne, h0, hrest]
      · have hp := sumPoints_pos_of_ne_nil _ hc hne
        simp [List.filterMap_cons, List.filter_cons, hne, hp, hrest]

theorem aggregationPool_eq_spec (functionScores : List FunctionScore)
    (classScores : List ClassScore)
    (hpos : ∀ c ∈ classScores, ∀ v ∈ c.constructorViolations, 0 < v.pointsDeducted) :
    aggregationPool functionScores classScores
      = specAggregationPool functionScores classScores := by
  unfold aggregationPool specAggregationPool
  rw [dirtyCtorScores_eq classScores hpos]

theorem aggregateFileScore_of_empty (functionScores : List FunctionScore)
    (classScores : List ClassScore)
    (h : aggregationPool functionScores classScores = []) :
    aggregateFileScore functionScores classScores = 100 := by
  unfold aggregateFileScore
  rw [h]

theorem aggregateFileScore_mem (functionScores : List FunctionScore)
    (classScores : List ClassScore)
    (h : aggregationPool functionScores classScores ≠ []) :
    aggregateFileScore functionScores classScores
      ∈ aggregationPool functionScores classScores := by
  unfold aggregateFileScore
  cases hp : aggregationPool functionScores classScores with
  | nil => exact absurd hp h
  | cons a rest => exact foldlMin_mem rest a

theorem aggregateFileScore_le (functionScores : List FunctionScore)
    (classScores : List ClassScore) (x : Int)
    (hx : x ∈ aggregationPool functionScores classScores) :
    aggregateFileScore functionScores classScores ≤ x := by
  unfold aggregateFileScore
  cases hp : aggregationPool functionScores classScores with
  | nil =>
      rw [hp] at hx
      exact absurd hx (List.not_mem_nil x)
  | cons a rest =>
      rw [hp] at hx
      exact foldlMin_le rest a x hx

/-! ## Claim theorems -/

/-- C1: the file-level aggregation returns the minimum over the combined pool
of top-level function finals, method finals and derived constructor scores of
classes with at least one constructor violation (the code's guard
`constructor_penalty > 0` coincides with "at least one violation" because
every violation carries a positive deduction), and returns 100 when that pool
is empty; moreover every `FileScore` returned by `analyze_file` for a parsed
tree carries exactly this aggregate as its overall score. -/
theorem C1_overall_score_is_min :
    (∀ (functionScores : List FunctionScore) (classScores : List ClassScore),
      (∀ c ∈ classScores, ∀ v ∈ c.constructorViolations, 0 < v.pointsDeducted) →
      (specAggregationPool functionScores classScores = [] →
        aggregateFileScore functionScores classScores = 100) ∧
      (specAggregationPool functionScores classScores ≠ [] →
        aggregateFileScore functionScores classScores
          ∈ specAggregationPool functionScores classScores ∧
        ∀ x ∈ specAggregationPool functionScores classScores,
          aggregateFileScore functionScores classScores ≤ x)) ∧
    (∀ (tree : Node) (filePath : String) (result : FileScore),
      analyzeFile (.parsed tree) filePath = .ok result →
      result.overallScore
        = aggregateFileScore result.functionScores result.classScores) := by
  constructor
  · intro functionScores classScores hpos
    have hpool := aggregationPool_eq_spec functionScores classScores hpos
    constructor
    · intro hempty
      exact aggregateFileScore_of_empty _ _ (hpool.trans hempty)
    · intro hne
      refine ⟨?_, ?_⟩
      · rw [← hpool]
        exact aggregateFileScore_mem _ _ (hpool ▸ hne)
      · intro x hx
        exact aggregateFileScore_le _ _ x (hpool ▸ hx)
  · intro tree filePath result h
    unfold analyzeFile at h
    simp only [parseFile, bind, Except.bind] at h
    cases hf : analyzeFunctions tree (buildContext tree) with
    | error e =>
        rw [hf] at h
        simp at h
    | ok functionScores =>
        rw [hf] at h
        simp only [] at h
        cases hc : analyzeClasses tree (buildContext tree) with
        | error e =>
            rw [hc] at h
            simp at h
        | ok classScores =>
            rw [hc] at h
            simp only [pure, Except.pure, Except.ok.injEq] at h
            rw [← h]

/-- C1 witness: the aggregation pool of the example scores is non-empty and
the aggregate 40 is its minimum. -/
theorem C1_overall_score_is_min_witness :
    aggregateFileScore exampleFunctionScores exampleClassScores
        ∈ specAggregationPool exampleFunctionScores exampleClassScores ∧
      ∀ x ∈ specAggregationPool exampleFunctionScores exampleClassScores,
        aggregateFileScore exampleFunctionScores exampleClassScores ≤ x :=
  (C1_overall_score_is_min.1 exampleFunctionScores exampleClassScores
    (by decide)).2 (by decide)

/-- C2: `calculate_function_score` yields a `FunctionScore` whose final score
is `max(0, 100 − sum of points_deducted)`, always within `[0, 100]`, carrying
the given violation list. -/
theorem C2_function_score_clamped (functionName : String) (lineNumber : Nat)
    (violations : List Violation) :
    (calculateFunctionScore functionName lineNumber violations).finalScore
        = max 0 ((100 : Int) - (sumPoints violations : Int)) ∧
      0 ≤ (calculateFunctionScore functionName lineNumber violations).finalScore ∧
      (calculateFunctionScore functionName lineNumber violations).finalScore ≤ 100 ∧
      (calculateFunctionScore functionName lineNumber violations).violations
        = violations := by
  refine ⟨max_comm _ _, le_max_right _ _, ?_, rfl⟩
  have hnn : (0 : Int) ≤ (sumPoints violations : Int) := Int.ofNat_nonneg _
  exact max_le (by omega) (by norm_num)

/-- C3: contrary to the claim, `analyze_file` is not total.  A parseable file
containing a single function makes it raise `AttributeError` (via the Branch
Explosion rule), and a missing/unreadable file makes it raise
`FileNotFoundError` (uncaught by `parse_file`); only the
syntax-error/decode-error path produces the claimed sentinel `FileScore`. -/
theorem C3_analyze_file_not_total :
    analyzeFile (.parsed modOneFunction) "one_function.py" = .error .attributeError ∧
    analyzeFile .unreadable "missing.py" = .error .fileNotFoundError ∧
    analyzeFile .syntaxError "bad.py"
        = .ok { filePath := "bad.py", overallScore := 0,
                classification := "Parse Error", functionScores := [],
                classScores := [], redFlags := [] } ∧
    analyzeFile .undecodable "bin.py"
        = .ok { filePath := "bin.py", overallScore := 0,
                classification := "Parse Error", functionScores := [],
                classScores := [], redFlags := [] } :=
  ⟨rfl, rfl, rfl, rfl⟩

/-- C4 counterexample: `"External Dependency Count"` (the `rule_name` of
`ExternalDependencyRule`) is not the name of any rule returned by
`get_all_rules`. -/
theorem C4_no_external_dependency_rule :
    externalDependencyRuleName ∉ getAllRules.map RuleTag.ruleName := by
  decide

/-- C4 amended: `get_all_rules` returns the fixed, ordered list of eleven rule
instances — but `ExternalDependencyRule` is imported and never registered, so
no registered rule matches the External Dependency Count heuristic. -/
theorem C4_registry_contents :
    getAllRules.map RuleTag.ruleName
        = ["Direct File I/O in Logic", "Non-Deterministic Time Usage",
           "Randomness Usage", "Global State Mutation", "Mixed I/O and Logic",
           "Branch Explosion Risk", "Exception-Driven Control Flow",
           "Constructor Side Effects",
           "Hidden Dependencies via Imports-in-Function",
           "Excessive Parameter Count", "Low Observability"] ∧
      getAllRules.length = 11 ∧
      externalDependencyRuleName ∉ getAllRules.map RuleTag.ruleName := by
  refine ⟨rfl, rfl, ?_⟩
  decide

/-- C5: contrary to the claim (and to the repository's own
`test_integration.py::test_simple_codebase`, which asserts exactly two
function scores for this fixture), `_analyze_functions` walks the whole tree
and therefore enumerates the class methods `__init__` and `area` alongside
the two top-level functions; in actual execution `analyze_file` then raises
`AttributeError` before returning any `FileScore`. -/
theorem C5_methods_enumerated_as_functions :
    enumeratedFunctionNames simpleCodebaseTree
        = ["calculate_area", "format_result", "__init__", "area"] ∧
      analyzeFile (.parsed simpleCodebaseTree) "simple.py"
        = .error .attributeError :=
  ⟨rfl, rfl⟩

/-- C6: the red-flag asymmetry the claim demands does not hold: the method
`tick` is enumerated into the same pool as top-level functions, its
Non-Deterministic Time Usage violation is red-flagged, and the red-flag
collection keeps every red-flagged violation of every enumerated
`FunctionScore` (methods included); in actual execution `analyze_file`
raises before returning any `FileScore` for such a file. -/
theorem C6_method_red_flags_not_excluded :
    "tick" ∈ enumeratedFunctionNames redFlagMethodTree ∧
      evalTimeUsageRule tickMethod
        = [{ ruleName := "Non-Deterministic Time Usage",
             description := "Non-deterministic time usage makes testing difficult",
             pointsDeducted := 10, lineNumber := 3,
             functionName := "tick", isRedFlag := true }] ∧
      collectRedFlags
          [calculateFunctionScore "tick" 2 (evalTimeUsageRule tickMethod)] []
        = evalTimeUsageRule tickMethod ∧
      analyzeFile (.parsed redFlagMethodTree) "service.py"
        = .error .attributeError :=
  ⟨by decide, rfl, rfl, rfl⟩

/-- C7: the Constructor Side Effects rule produces the claimed single 15-point
red-flag violation only when handed the `ClassDef` node (as the rule's own
unit test does); `_analyze_classes` instead hands it the `__init__`
`FunctionDef`, for which it returns no violations, and the full analysis of
the fixture raises `AttributeError` before returning anything. -/
theorem C7_constructor_rule_never_fires :
    evalConstructorSideEffectsRule dirtyCtorClass
        = [{ ruleName := "Constructor Side Effects",
             description := "Constructor has side effects that make testing difficult",
             pointsDeducted := 15, lineNumber := 2,
             functionName := "MyClass.__init__", isRedFlag := true }] ∧
      evalConstructorSideEffectsRule dirtyInitMethod = [] ∧
      analyzeClassBody (buildContext dirtyCtorTree) [dirtyInitMethod]
        = .error .attributeError ∧
      analyzeFile (.parsed dirtyCtorTree) "ctor.py" = .error .attributeError :=
  ⟨rfl, rfl, rfl, rfl⟩

/-- C8: contrary to the claim, the Branch Explosion rule never returns a
violation list for any function: `_count_branches` evaluates the tuple
`(ast.While, ast.AsyncWhile)` for the very first walked node (the function
itself), and `ast.AsyncWhile` does not exist, so `evaluate` raises
`AttributeError` on every function node — in particular on the claim's
six-branch example instead of deducting 6 points. -/
theorem C8_branch_rule_always_raises :
    (∀ n : Node, n.isFunctionNode = true →
      evalBranchExplosionRule n = .error .attributeError) ∧
    evalBranchExplosionRule sixBranchFunction = .error .attributeError := by
  have hgen : ∀ n : Node, n.isFunctionNode = true →
      evalBranchExplosionRule n = .error .attributeError := by
    intro n hn
    have hstep : branchCountStep n = .error .attributeError := by
      cases n <;> first
        | rfl
        | simp [Node.isFunctionNode] at hn
    have hcount : countBranches n = .error .attributeError := by
      unfold countBranches walk
      have hw : walkAux (n.size + 1) [n] = n :: walkAux n.size ([] ++ n.children) := rfl
      rw [hw]
      simp [List.foldlM_cons, hstep, bind, Except.bind]
    unfold evalBranchExplosionRule
    rw [hn]
    simp [hcount, bind, Except.bind]
  exact ⟨hgen, hgen sixBranchFunction rfl⟩

/-- C8 witness: the six-branch function is a function node, so the rule
raises on it. -/
theorem C8_branch_rule_always_raises_witness :
    Node.isFunctionNode sixBranchFunction = true ∧
      evalBranchExplosionRule sixBranchFunction = .error .attributeError :=
  ⟨rfl, C8_branch_rule_always_raises.1 sixBranchFunction rfl⟩

/-- C9 counterexample: `import os` inside a function body is an in-body import
whose top-level module is not in the allow-list, yet the rule yields no
violation (because `os` is also not in the rule's external-indicator list). -/
theorem C9_os_import_not_flagged :
    allowedImports.contains "os" = false ∧
      (walk osImportFunction).any Node.isImportNode = true ∧
      evalHiddenImportsRule osImportFunction = [] ∧
      evalHiddenImportsRule jsonImportFunction = [] :=
  ⟨rfl, rfl, rfl, rfl⟩

/-- C9 amended: for every function node, the rule yields exactly one flat
5-point non-red-flag violation precisely when some import in the walked body
is problematic — i.e. its top-level module is in the fixed
external-indicators list and not allow-listed — and yields nothing
otherwise. -/
theorem C9_hidden_imports_external_only (n : Node)
    (hn : n.isFunctionNode = true) :
    (evalHiddenImportsRule n = [] ∨
      ∃ v : Violation, evalHiddenImportsRule n = [v] ∧ v.pointsDeducted = 5 ∧
        v.isRedFlag = false ∧
        v.ruleName = "Hidden Dependencies via Imports-in-Function") ∧
    ((∃ c ∈ walk n, (c.isImportNode && isProblematicImport c) = true) ↔
      evalHiddenImportsRule n ≠ []) := by
  unfold evalHiddenImportsRule
  rw [hn]
  simp only [Bool.not_true]
  cases hf : (walk n).find? (fun c => c.isImportNode && isProblematicImport c) with
  | none =>
      refine ⟨Or.inl (by simp), ?_, ?_⟩
      · rintro ⟨c, hc, hp⟩
        have hnone := List.find?_eq_none.mp hf c hc
        exact absurd hp hnone
      · intro hne
        simp at hne
  | some c =>
      refine ⟨Or.inr ⟨_, rfl, rfl, rfl, rfl⟩, ?_, ?_⟩
      · intro _
        simp
      · intro _
        have hp := List.find?_some hf
        exact ⟨c, List.mem_of_find?_eq_some hf, by simpa using hp⟩

/-- C9 witness: a function whose body imports `numpy` (an external-indicator
module) satisfies the amended characterisation. -/
theorem C9_hidden_imports_external_only_witness :
    ((∃ c ∈ walk numpyImportFunction,
        (c.isImportNode && isProblematicImport c) = true) ↔
      evalHiddenImportsRule numpyImportFunction ≠ []) ∧
      evalHiddenImportsRule numpyImportFunction
        = [{ ruleName := "Hidden Dependencies via Imports-in-Function",
             description := "Hidden dependency via import inside function",
             pointsDeducted := 5, lineNumber := 2,
             functionName := "load_array", isRedFlag := false }] :=
  ⟨(C9_hidden_imports_external_only numpyImportFunction rfl).2, rfl⟩

/-- C10 counterexample: for a file whose class defines a dirty `__init__`,
`analyze_file` raises `AttributeError` and returns no `FileScore` at all, so
no `FunctionScore` for `__init__` is ever included anywhere. -/
theorem C10_no_filescore_returned :
    analyzeFile (.parsed dirtyCtorTree) "double_count.py"
      = .error .attributeError := rfl

/-- C10 amended: structurally, the whole-tree walk of `_analyze_functions`
does select the `__init__` node as an ordinary function (the same node the
class scan routes to `constructor_violations`), but running the rule battery
on it raises `AttributeError`, so neither enumeration ever produces scores
and `analyze_file` raises for any file defining `__init__`. -/
theorem C10_init_enumerated_but_raises :
    functionNodesOf dirtyCtorTree = [dirtyInitMethod] ∧
      enumeratedFunctionNames dirtyCtorTree = ["__init__"] ∧
      analyzeFunctions dirtyCtorTree (buildContext dirtyCtorTree)
        = .error .attributeError ∧
      analyzeClasses dirtyCtorTree (buildContext dirtyCtorTree)
        = .error .attributeError :=
  ⟨rfl, rfl, rfl, rfl⟩
